import Mathlib

/-!
Verification development for the Trafilytics billboard analytics firmware
(src/src/main.cpp). The core state machine — salted FNV-1a anonymization,
two-generation deduplication, cycle/cumulative counter aggregation, the
daily impression tally and its day-boundary handling — is shallowly
embedded below. Hardware and transport collaborators (the WiFi scan
driver, the cellular modem, GPS, Firebase, SD logging) are modelled as
inputs/outputs of the pure step functions: the scan driver result is the
pair of a count and a list of BSSIDs, the time/remote collaborators are
an environment record consumed by the report step, and publishes are
reported as effects.

Modelling conventions:
- the C++ global variables (main.cpp lines 62-108) become the fields of
  `SysState`; each step function returns the updated state;
- `std::set<String>` becomes `List String`; the code only inserts a hash
  after a failed membership test, so list membership coincides with set
  membership;
- `uint32_t` counters are modelled as unbounded naturals (the spec data
  model calls them integers; 32-bit wraparound is unreachable at the
  scales the device operates at and is not modelled). The 64-bit FNV-1a
  hash arithmetic, where overflow is essential, is taken modulo 2^64;
- serial printing, GPS refresh and SD logging mutate no core state and
  are omitted.
-/

/-- MAX_NETWORKS_PER_SCAN, main.cpp line 43: safety limit for processing. -/
def MAX_NETWORKS_PER_SCAN : Nat := 20

/-- SCANS_PER_UPLOAD, main.cpp line 42: report every 10 scans. -/
def SCANS_PER_UPLOAD : Nat := 10

/-- Global mutable state of the firmware, main.cpp lines 62-108.
Fields keep the source variable names. -/
structure SysState where
  wifiNetworksThisCycle : Nat
  repeatedWifiNetworks : Nat
  uniqueWifiNetworks : Nat
  impressionCount : Nat
  totalWifiNetworks : Nat
  totalScansPerformed : Nat
  totalReportsGenerated : Nat
  currentCycleHashes : List String
  previousCycleHashes : List String
  scanCounter : Nat
  reportCounter : Nat
  ephemeralSalt : Nat
  scanErrors : Nat
  combinedBillboardId : String
  currentDateTime : String
  currentDate : String
  dailyImpressions : Nat
deriving DecidableEq

/-- FNV offset basis, main.cpp line 472. -/
def FNV_OFFSET_BASIS : Nat := 0xcbf29ce484222325

/-- FNV prime, main.cpp line 473. -/
def FNV_PRIME : Nat := 0x100000001b3

/-- Modulus of the uint64 hash accumulator. -/
def UINT64_MOD : Nat := 2 ^ 64

/-- One FNV-1a round (main.cpp lines 478-479): xor in one byte, multiply
by the prime, modulo 2^64. The byte is truncated to uint8 range. -/
def fnv1aStep (h b : Nat) : Nat := ((h ^^^ b % 256) * FNV_PRIME) % UINT64_MOD

/-- Little-endian bytes of the uint32 ephemeral salt, main.cpp line 482
(the cast of the salt address to a byte pointer on the ESP32). -/
def saltBytes (salt : Nat) : List Nat :=
  [salt % 256, salt / 2 ^ 8 % 256, salt / 2 ^ 16 % 256, salt / 2 ^ 24 % 256]

/-- Numeric value computed by hashMAC, main.cpp lines 475-486: FNV-1a
over the 6 identifier bytes (first loop) then the 4 salt bytes
(second loop). -/
def fnvMAC (mac : List Nat) (salt : Nat) : Nat :=
  List.foldl fnv1aStep (List.foldl fnv1aStep FNV_OFFSET_BASIS (mac.take 6)) (saltBytes salt)

/-- Hex digit character, lowercase, as produced by the %016llx format. -/
def hexChar (n : Nat) : Char :=
  if n < 10 then Char.ofNat (48 + n) else Char.ofNat (87 + n)

/-- Fixed-width big-endian base-16 digit list of a natural number. -/
def toHexLoop : Nat → Nat → List Char
  | 0, _ => []
  | Nat.succ k, n => toHexLoop k (n / 16) ++ [hexChar (n % 16)]

/-- Sixteen-digit zero-padded lowercase hex rendering, main.cpp
lines 488-489 (sprintf with %016llx). -/
def toHex16 (n : Nat) : String := String.mk (toHexLoop 16 n)

/-- hashMAC, main.cpp lines 471-492: the anonymizing fingerprint of a
6-byte identifier under the process salt, rendered as 16 hex digits. -/
def hashMAC (mac : List Nat) (salt : Nat) : String := toHex16 (fnvMAC mac salt)

/-- FNV-1a of a byte sequence as the spec describes the anonymizer
(spec section 4.1): one sequential pass from the fixed offset basis.
Used only to compare hashMAC against the spec wording. -/
def specFNV1a (bytes : List Nat) : Nat := List.foldl fnv1aStep FNV_OFFSET_BASIS bytes

/-- Accumulator of the per-scan classification loop, main.cpp
lines 436-457: the current-cycle hash set being grown, the two per-scan
classification tallies, and the running cumulative unique total. -/
structure ClassAcc where
  cur : List String
  uniq : Nat
  rep : Nat
  total : Nat
deriving DecidableEq

/-- Body of the classification loop, main.cpp lines 448-457: a hash found
in the current cycle set counts as repeated; otherwise it counts as
unique, is inserted, and the cumulative total advances exactly when the
hash is also absent from the previous generation. -/
def classifyOne (prev : List String) (acc : ClassAcc) (h : String) : ClassAcc :=
  if h ∈ acc.cur then
    { acc with rep := acc.rep + 1 }
  else
    { acc with
        cur := h :: acc.cur,
        uniq := acc.uniq + 1,
        total := if h ∈ prev then acc.total else acc.total + 1 }

/-- Classification of one scan batch, main.cpp lines 436-461: at most
MAX_NETWORKS_PER_SCAN results are hashed and classified (the ternary cap
at lines 438-439). -/
def scanClassification (st : SysState) (n : Nat) (bssids : List (List Nat)) : ClassAcc :=
  let processCount := if MAX_NETWORKS_PER_SCAN < n then MAX_NETWORKS_PER_SCAN else n
  List.foldl (classifyOne st.previousCycleHashes)
    ⟨st.currentCycleHashes, 0, 0, st.totalWifiNetworks⟩
    ((bssids.take processCount).map (fun m => hashMAC m st.ephemeralSalt))

/-- performWiFiScan, main.cpp lines 413-469. The scan driver outcome is
passed in: networksFound (negative on driver error) and the BSSID list.
Every call counts one scan attempt (line 415). A negative count only
increments the error tally (lines 417-423); a zero count changes nothing
further (lines 425-429); otherwise the raw count is added to the
impression and cycle totals (lines 434, 463) and the capped batch is
classified into the dedup sets and per-scan tallies (lines 436-465). -/
def performWiFiScan (st : SysState) (networksFound : Int) (bssids : List (List Nat)) : SysState :=
  if networksFound < 0 then
    { st with
        totalScansPerformed := st.totalScansPerformed + 1,
        scanErrors := st.scanErrors + 1 }
  else if networksFound = 0 then
    { st with totalScansPerformed := st.totalScansPerformed + 1 }
  else
    let acc := scanClassification st networksFound.toNat bssids
    { st with
        totalScansPerformed := st.totalScansPerformed + 1,
        impressionCount := st.impressionCount + networksFound.toNat,
        wifiNetworksThisCycle := st.wifiNetworksThisCycle + networksFound.toNat,
        currentCycleHashes := acc.cur,
        totalWifiNetworks := acc.total,
        uniqueWifiNetworks := st.uniqueWifiNetworks + acc.uniq,
        repeatedWifiNetworks := st.repeatedWifiNetworks + acc.rep }

/-- extractDateFromDateTime, main.cpp lines 828-838: the prefix before
the first space when that space exists at a positive index, otherwise
the string Unknown. -/
def extractDateFromDateTime (dateTime : String) : String :=
  match dateTime.toList.findIdx? (fun c => c == ' ') with
  | some i => if 0 < i then String.mk (dateTime.toList.take i) else "Unknown"
  | none => "Unknown"

/-- Environment consumed by one report step: whether Firebase is ready,
the time collaborator result (getTimeFromSIM7600, either a formatted
timestamp or the sentinel), and the remote fetch outcome for the
daily-impressions path (error code zero, fetched integer). -/
structure ReportEnv where
  appReady : Bool
  timeStr : String
  fetchOk : Bool
  fetchValue : Int
deriving DecidableEq

/-- Externally visible effects of one report step: whether the daily data
publish was issued and the composed report JSON, when any. -/
structure ReportEffects where
  published : Bool
  reportJSON : Option String
deriving DecidableEq

/-- Unconditional opening of reportAnalytics, main.cpp lines 495-497:
the report counters advance and the per-cycle impression count is folded
into the daily tally before any time or connectivity check. -/
def reportBase (st : SysState) : SysState :=
  { st with
      reportCounter := st.reportCounter + 1,
      totalReportsGenerated := st.totalReportsGenerated + 1,
      dailyImpressions := st.dailyImpressions + st.impressionCount }

/-- Resumption value for the daily tally, main.cpp lines 555-561 (and the
startup variant at lines 332-341): the remote value when the fetch
succeeded with a positive integer, otherwise zero. -/
def resumeDailyTally (fetchOk : Bool) (fetchValue : Int) : Nat :=
  if fetchOk = true ∧ 0 < fetchValue then fetchValue.toNat else 0

/-- Day-boundary decision, main.cpp lines 544-564: on a date different
from a non-empty stored date, adopt the new date and replace the daily
tally with the resumed remote value; on an empty stored date, adopt the
date; otherwise change nothing. -/
def applyDayBoundary (st : SysState) (env : ReportEnv) : SysState :=
  if extractDateFromDateTime env.timeStr ≠ st.currentDate ∧ 0 < st.currentDate.length then
    { st with
        currentDate := extractDateFromDateTime env.timeStr,
        dailyImpressions := resumeDailyTally env.fetchOk env.fetchValue }
  else if st.currentDate.length = 0 then
    { st with currentDate := extractDateFromDateTime env.timeStr }
  else st

/-- buildDailyDataJSON, main.cpp lines 621-632. -/
def buildDailyDataJSON (st : SysState) : String :=
  "\x7b\"billboard_id\":\"" ++ st.combinedBillboardId ++ "\",\"date\":\"" ++ st.currentDate ++
    "\",\"daily_impressions\":" ++ toString st.dailyImpressions ++ ",\"last_updated\":\"" ++
    st.currentDateTime ++ "\"\x7d"

/-- reportAnalytics, main.cpp lines 494-619, as a state-and-effects
function of the report environment. After the unconditional counter fold
(lines 495-497): when Firebase is ready the time is refreshed (line 539);
a valid time (line 543) runs the day-boundary decision (lines 545-564)
and, for a usable stored date (line 567), composes and publishes the
daily JSON (lines 568-586). Every other path publishes nothing. -/
def reportAnalytics (st : SysState) (env : ReportEnv) : SysState × ReportEffects :=
  if env.appReady = true then
    let st1 := { reportBase st with currentDateTime := env.timeStr }
    if extractDateFromDateTime env.timeStr ≠ "Unknown" ∧ env.timeStr ≠ "Time unavailable" then
      let st2 := applyDayBoundary st1 env
      if 0 < st2.currentDate.length ∧ st2.currentDate ≠ "Unknown" then
        (st2, { published := true, reportJSON := some (buildDailyDataJSON st2) })
      else
        (st2, { published := false, reportJSON := none })
    else
      (st1, { published := false, reportJSON := none })
  else
    (reportBase st, { published := false, reportJSON := none })

/-- Cycle reset block of loop, main.cpp lines 398-405: the generation
rollover (previous becomes current, current is cleared) and the zeroing
of every per-cycle counter including the scan counter. -/
def cycleReset (st : SysState) : SysState :=
  { st with
      previousCycleHashes := st.currentCycleHashes,
      currentCycleHashes := [],
      wifiNetworksThisCycle := 0,
      repeatedWifiNetworks := 0,
      uniqueWifiNetworks := 0,
      impressionCount := 0,
      scanCounter := 0 }

/-- One scan-timer expiry of loop, main.cpp lines 388-407: perform the
scan, advance the scan counter, and on the tenth scan run the report and
the cycle reset. The report effects are returned when a report fired. -/
def loopScanTick (st : SysState) (networksFound : Int) (bssids : List (List Nat))
    (env : ReportEnv) : SysState × Option ReportEffects :=
  let sc := performWiFiScan st networksFound bssids
  let sc := { sc with scanCounter := sc.scanCounter + 1 }
  if SCANS_PER_UPLOAD ≤ sc.scanCounter then
    let r := reportAnalytics sc env
    (cycleReset r.1, some r.2)
  else
    (sc, none)

/-- Successful scan with the driver reporting exactly the returned BSSID
list, the normal case of WiFi.scanNetworks. -/
def scanBatch (st : SysState) (bssids : List (List Nat)) : SysState :=
  performWiFiScan st (bssids.length : Int) bssids

/-- Report followed by the cycle reset: the tail of the tenth scan tick. -/
def endCycle (st : SysState) (env : ReportEnv) : SysState :=
  cycleReset (reportAnalytics st env).1

/-- State at the end of setup, main.cpp lines 140-373: all counters zero,
both generations empty, the salt fixed for the process lifetime, the
startup date stored, and the daily tally possibly resumed from remote. -/
def initState (salt : Nat) (date : String) (daily : Nat) : SysState :=
  { wifiNetworksThisCycle := 0
    repeatedWifiNetworks := 0
    uniqueWifiNetworks := 0
    impressionCount := 0
    totalWifiNetworks := 0
    totalScansPerformed := 0
    totalReportsGenerated := 0
    currentCycleHashes := []
    previousCycleHashes := []
    scanCounter := 0
    reportCounter := 0
    ephemeralSalt := salt
    scanErrors := 0
    combinedBillboardId := ""
    currentDateTime := ""
    currentDate := date
    dailyImpressions := daily }

/-- Condition under which the report step takes the day-rollover branch
of main.cpp line 545: Firebase ready, a valid time result, and a fetched
date that differs from the non-empty stored date. -/
def dayRolloverTaken (st : SysState) (env : ReportEnv) : Prop :=
  env.appReady = true ∧
    (extractDateFromDateTime env.timeStr ≠ "Unknown" ∧ env.timeStr ≠ "Time unavailable") ∧
    (extractDateFromDateTime env.timeStr ≠ st.currentDate ∧ 0 < st.currentDate.length)

instance (st : SysState) (env : ReportEnv) : Decidable (dayRolloverTaken st env) := by
  unfold dayRolloverTaken
  exact inferInstance

/-! Helper lemmas shared by the claim theorems. -/

/-- Characterization of a scan with a positive driver count: the branch
structure of performWiFiScan collapses to the classification update. -/
theorem performWiFiScan_pos (st : SysState) (n : Int) (bssids : List (List Nat))
    (hn : 0 < n) :
    performWiFiScan st n bssids =
      { st with
          totalScansPerformed := st.totalScansPerformed + 1,
          impressionCount := st.impressionCount + n.toNat,
          wifiNetworksThisCycle := st.wifiNetworksThisCycle + n.toNat,
          currentCycleHashes := (scanClassification st n.toNat bssids).cur,
          totalWifiNetworks := (scanClassification st n.toNat bssids).total,
          uniqueWifiNetworks := st.uniqueWifiNetworks + (scanClassification st n.toNat bssids).uniq,
          repeatedWifiNetworks := st.repeatedWifiNetworks + (scanClassification st n.toNat bssids).rep } := by
  unfold performWiFiScan
  rw [if_neg (by omega), if_neg (by omega)]

/-- Each classified hash raises exactly one of the two per-scan tallies. -/
theorem classify_count (prev : List String) (hs : List String) (acc : ClassAcc) :
    (List.foldl (classifyOne prev) acc hs).uniq + (List.foldl (classifyOne prev) acc hs).rep
      = acc.uniq + acc.rep + hs.length := by
  induction hs generalizing acc with
  | nil => simp
  | cons h t ih =>
    rw [List.foldl_cons, ih]
    unfold classifyOne
    split <;> simp <;> omega

/-- The cumulative unique total never decreases along a classification. -/
theorem classify_total_mono (prev : List String) (hs : List String) (acc : ClassAcc) :
    acc.total ≤ (List.foldl (classifyOne prev) acc hs).total := by
  induction hs generalizing acc with
  | nil => simp
  | cons h t ih =>
    rw [List.foldl_cons]
    refine le_trans ?_ (ih _)
    unfold classifyOne
    split
    · simp
    · split <;> simp

/-- Resulting state of the report step, by cases on readiness and time
validity; the publish decision does not affect the state. -/
theorem reportAnalytics_fst (st : SysState) (env : ReportEnv) :
    (reportAnalytics st env).1 =
      if env.appReady = true then
        if extractDateFromDateTime env.timeStr ≠ "Unknown" ∧ env.timeStr ≠ "Time unavailable" then
          applyDayBoundary { reportBase st with currentDateTime := env.timeStr } env
        else
          { reportBase st with currentDateTime := env.timeStr }
      else
        reportBase st := by
  unfold reportAnalytics
  repeat' split
  any_goals rfl
  next =>
    dsimp only
    split <;> rfl

/-- Fields that the day-boundary decision never touches. -/
theorem applyDayBoundary_frame (st : SysState) (env : ReportEnv) :
    (applyDayBoundary st env).currentCycleHashes = st.currentCycleHashes ∧
    (applyDayBoundary st env).previousCycleHashes = st.previousCycleHashes ∧
    (applyDayBoundary st env).totalWifiNetworks = st.totalWifiNetworks ∧
    (applyDayBoundary st env).uniqueWifiNetworks = st.uniqueWifiNetworks ∧
    (applyDayBoundary st env).repeatedWifiNetworks = st.repeatedWifiNetworks ∧
    (applyDayBoundary st env).wifiNetworksThisCycle = st.wifiNetworksThisCycle ∧
    (applyDayBoundary st env).impressionCount = st.impressionCount ∧
    (applyDayBoundary st env).scanCounter = st.scanCounter ∧
    (applyDayBoundary st env).totalScansPerformed = st.totalScansPerformed ∧
    (applyDayBoundary st env).ephemeralSalt = st.ephemeralSalt ∧
    (applyDayBoundary st env).scanErrors = st.scanErrors ∧
    (applyDayBoundary st env).totalReportsGenerated = st.totalReportsGenerated := by
  unfold applyDayBoundary
  repeat' split
  all_goals exact ⟨rfl, rfl, rfl, rfl, rfl, rfl, rfl, rfl, rfl, rfl, rfl, rfl⟩

/-- Fields of the core state that the report step never touches, and the
cumulative report counter it advances by one. -/
theorem reportAnalytics_frame (st : SysState) (env : ReportEnv) :
    (reportAnalytics st env).1.currentCycleHashes = st.currentCycleHashes ∧
    (reportAnalytics st env).1.previousCycleHashes = st.previousCycleHashes ∧
    (reportAnalytics st env).1.totalWifiNetworks = st.totalWifiNetworks ∧
    (reportAnalytics st env).1.uniqueWifiNetworks = st.uniqueWifiNetworks ∧
    (reportAnalytics st env).1.repeatedWifiNetworks = st.repeatedWifiNetworks ∧
    (reportAnalytics st env).1.wifiNetworksThisCycle = st.wifiNetworksThisCycle ∧
    (reportAnalytics st env).1.impressionCount = st.impressionCount ∧
    (reportAnalytics st env).1.scanCounter = st.scanCounter ∧
    (reportAnalytics st env).1.totalScansPerformed = st.totalScansPerformed ∧
    (reportAnalytics st env).1.ephemeralSalt = st.ephemeralSalt ∧
    (reportAnalytics st env).1.scanErrors = st.scanErrors ∧
    (reportAnalytics st env).1.totalReportsGenerated = st.totalReportsGenerated + 1 := by
  rw [reportAnalytics_fst]
  repeat' split
  · have h := applyDayBoundary_frame { reportBase st with currentDateTime := env.timeStr } env
    simp [reportBase] at h ⊢
    tauto
  · exact ⟨rfl, rfl, rfl, rfl, rfl, rfl, rfl, rfl, rfl, rfl, rfl, rfl⟩
  · exact ⟨rfl, rfl, rfl, rfl, rfl, rfl, rfl, rfl, rfl, rfl, rfl, rfl⟩
/-- State shape after a report and its cycle reset: generations rolled,
cycle counters zeroed, cumulative unique total and salt preserved. -/
theorem endCycle_fields (st : SysState) (env : ReportEnv) :
    (endCycle st env).currentCycleHashes = [] ∧
    (endCycle st env).previousCycleHashes = st.currentCycleHashes ∧
    (endCycle st env).totalWifiNetworks = st.totalWifiNetworks ∧
    (endCycle st env).uniqueWifiNetworks = 0 ∧
    (endCycle st env).repeatedWifiNetworks = 0 ∧
    (endCycle st env).impressionCount = 0 ∧
    (endCycle st env).wifiNetworksThisCycle = 0 ∧
    (endCycle st env).scanCounter = 0 ∧
    (endCycle st env).ephemeralSalt = st.ephemeralSalt := by
  obtain ⟨h1, h2, h3, h4, h5, h6, h7, h8, h9, h10, h11, h12⟩ := reportAnalytics_frame st env
  unfold endCycle cycleReset
  exact ⟨rfl, h1, h3, rfl, rfl, rfl, rfl, rfl, h10⟩

/-- Effect of a single-BSSID scan whose hash is new to both generations. -/
theorem scanBatch_single_new (st : SysState) (m : List Nat)
    (hcur : hashMAC m st.ephemeralSalt ∉ st.currentCycleHashes)
    (hprev : hashMAC m st.ephemeralSalt ∉ st.previousCycleHashes) :
    scanBatch st [m] =
      { st with
          totalScansPerformed := st.totalScansPerformed + 1,
          impressionCount := st.impressionCount + 1,
          wifiNetworksThisCycle := st.wifiNetworksThisCycle + 1,
          currentCycleHashes := hashMAC m st.ephemeralSalt :: st.currentCycleHashes,
          totalWifiNetworks := st.totalWifiNetworks + 1,
          uniqueWifiNetworks := st.uniqueWifiNetworks + 1 } := by
  unfold scanBatch
  rw [performWiFiScan_pos _ _ _ (by simp)]
  simp [scanClassification, classifyOne, MAX_NETWORKS_PER_SCAN, hcur, hprev]

/-- Effect of a single-BSSID scan whose hash is absent from the current
generation but present in the previous one. -/
theorem scanBatch_single_prevOnly (st : SysState) (m : List Nat)
    (hcur : hashMAC m st.ephemeralSalt ∉ st.currentCycleHashes)
    (hprev : hashMAC m st.ephemeralSalt ∈ st.previousCycleHashes) :
    scanBatch st [m] =
      { st with
          totalScansPerformed := st.totalScansPerformed + 1,
          impressionCount := st.impressionCount + 1,
          wifiNetworksThisCycle := st.wifiNetworksThisCycle + 1,
          currentCycleHashes := hashMAC m st.ephemeralSalt :: st.currentCycleHashes,
          uniqueWifiNetworks := st.uniqueWifiNetworks + 1 } := by
  unfold scanBatch
  rw [performWiFiScan_pos _ _ _ (by simp)]
  simp [scanClassification, classifyOne, MAX_NETWORKS_PER_SCAN, hcur, hprev]

/-- Daily tally after a report step that takes the day-rollover branch:
the stored date becomes the fetched date and the tally is the resumed
remote value. -/
theorem reportAnalytics_daily_roll (st : SysState) (env : ReportEnv)
    (h : dayRolloverTaken st env) :
    (reportAnalytics st env).1.currentDate = extractDateFromDateTime env.timeStr ∧
    (reportAnalytics st env).1.dailyImpressions = resumeDailyTally env.fetchOk env.fetchValue := by
  obtain ⟨h1, h2, h3⟩ := h
  rw [reportAnalytics_fst, if_pos h1, if_pos h2]
  unfold applyDayBoundary
  rw [if_pos]
  · exact ⟨rfl, rfl⟩
  · exact h3

/-- Daily tally after a report step that does not take the day-rollover
branch: the per-cycle impression count is folded in, nothing replaced. -/
theorem reportAnalytics_daily_noRoll (st : SysState) (env : ReportEnv)
    (h : ¬ dayRolloverTaken st env) :
    (reportAnalytics st env).1.dailyImpressions = st.dailyImpressions + st.impressionCount := by
  rw [reportAnalytics_fst]
  split
  · next h1 =>
    split
    · next h2 =>
      unfold applyDayBoundary
      rw [if_neg]
      · split <;> rfl
      · intro hc
        exact h ⟨h1, h2, hc⟩
    · rfl
  · rfl

/-- Report step under the unavailable time sentinel: nothing published,
no JSON composed, stored date untouched. -/
theorem reportAnalytics_unavailable (st : SysState) (env : ReportEnv)
    (henv : env.timeStr = "Time unavailable") :
    (reportAnalytics st env).2.published = false ∧
    (reportAnalytics st env).2.reportJSON = none ∧
    (reportAnalytics st env).1.currentDate = st.currentDate := by
  unfold reportAnalytics
  split
  · dsimp only
    rw [if_neg]
    · exact ⟨rfl, rfl, rfl⟩
    · rintro ⟨-, hc⟩
      exact hc henv
  · exact ⟨rfl, rfl, rfl⟩

/-! Concrete inputs for witnesses and counterexamples. -/

/-- Example 6-byte identifier. -/
def macA : List Nat := [0, 0, 0, 0, 0, 1]

/-- Second example 6-byte identifier, hashing differently under salt 0. -/
def macB : List Nat := [0, 0, 0, 0, 0, 2]

/-- Report environment with Firebase not ready. -/
def idleEnv : ReportEnv := { appReady := false, timeStr := "", fetchOk := false, fetchValue := 0 }

/-- Report environment whose time collaborator failed. -/
def unavailableEnv : ReportEnv :=
  { appReady := true, timeStr := "Time unavailable", fetchOk := false, fetchValue := 0 }

/-- Report environment observing a new date with a successful remote fetch. -/
def rolloverEnv : ReportEnv :=
  { appReady := true, timeStr := "2025-01-02 10:00:00 UTC", fetchOk := true, fetchValue := 42 }

/-- Fresh post-setup state with salt 0. -/
def baseState : SysState := initState 0 "2025-01-01" 0

/-- State mid-process: a stored tally of 7 and 5 impressions accumulated
in the running cycle. -/
def busyState : SysState := { initState 0 "2025-01-01" 7 with impressionCount := 5 }

/-- C1: per-hash classification against the two generation sets. A hash in
the current set counts as repeated and is not re-inserted; a hash in
neither set is inserted and raises both the cumulative unique total and
the cycle unique tally; a hash only in the previous set is inserted and
raises the cycle unique tally but not the cumulative total. In particular
a cycle whose input is A, A, B yields cycleUnique 2, cycleRepeated 1, and
a cumulative total increased by 2. -/
theorem C1_classification (prev : List String) (acc : ClassAcc) (h : String) :
    (h ∈ acc.cur → classifyOne prev acc h = { acc with rep := acc.rep + 1 }) ∧
    (h ∉ acc.cur → h ∉ prev →
      classifyOne prev acc h =
        { acc with cur := h :: acc.cur, uniq := acc.uniq + 1, total := acc.total + 1 }) ∧
    (h ∉ acc.cur → h ∈ prev →
      classifyOne prev acc h = { acc with cur := h :: acc.cur, uniq := acc.uniq + 1 }) ∧
    ((performWiFiScan baseState 3 [macA, macA, macB]).uniqueWifiNetworks = 2 ∧
      (performWiFiScan baseState 3 [macA, macA, macB]).repeatedWifiNetworks = 1 ∧
      (performWiFiScan baseState 3 [macA, macA, macB]).totalWifiNetworks =
        baseState.totalWifiNetworks + 2) := by
  refine ⟨?_, ?_, ?_, by decide, by decide, by decide⟩
  · intro hc
    simp [classifyOne, hc]
  · intro hc hp
    simp [classifyOne, hc, hp]
  · intro hc hp
    simp [classifyOne, hc, hp]

/-- Witness for C1 at concrete inputs: the repeated case fires on a hash
already in the current set. -/
theorem C1_classification_witness :
    "a" ∈ (["a"] : List String) ∧
    classifyOne [] ⟨["a"], 0, 0, 0⟩ "a" = ⟨["a"], 0, 1, 0⟩ :=
  ⟨by decide, (C1_classification [] ⟨["a"], 0, 0, 0⟩ "a").1 (by decide)⟩

/-- C8: hashMAC computes the 64-bit FNV-1a hash with offset basis
0xcbf29ce484222325 and prime 0x100000001b3, applied sequentially over the
6 identifier bytes followed by the 4 salt bytes, and is deterministic:
the same identifier under the same salt always yields the same
fingerprint. -/
theorem C8_hash_fnv1a (mac : List Nat) (salt : Nat) :
    fnvMAC mac salt = specFNV1a (mac.take 6 ++ saltBytes salt) ∧
    hashMAC mac salt = toHex16 (specFNV1a (mac.take 6 ++ saltBytes salt)) ∧
    FNV_OFFSET_BASIS = 0xcbf29ce484222325 ∧
    FNV_PRIME = 0x100000001b3 ∧
    (saltBytes salt).length = 4 ∧
    hashMAC mac salt = hashMAC mac salt := by
  have h : fnvMAC mac salt = specFNV1a (mac.take 6 ++ saltBytes salt) := by
    unfold fnvMAC specFNV1a
    rw [List.foldl_append]
  exact ⟨h, congrArg toHex16 h, rfl, rfl, rfl, rfl⟩

/-- C4: day rollover at report time. When the external date is valid and
differs from the non-empty stored date, the stored date becomes the
external date and the daily tally is replaced by the remote-fetched value
when that fetch succeeded with a positive value, and by 0 otherwise,
discarding the prior running total. -/
theorem C4_day_rollover (st : SysState) (env : ReportEnv)
    (hready : env.appReady = true)
    (hvalid : extractDateFromDateTime env.timeStr ≠ "Unknown" ∧ env.timeStr ≠ "Time unavailable")
    (hdiff : extractDateFromDateTime env.timeStr ≠ st.currentDate)
    (hnonempty : 0 < st.currentDate.length) :
    (reportAnalytics st env).1.currentDate = extractDateFromDateTime env.timeStr ∧
    (env.fetchOk = true ∧ 0 < env.fetchValue →
      (reportAnalytics st env).1.dailyImpressions = env.fetchValue.toNat) ∧
    (¬ (env.fetchOk = true ∧ 0 < env.fetchValue) →
      (reportAnalytics st env).1.dailyImpressions = 0) := by
  obtain ⟨hdate, hdaily⟩ := reportAnalytics_daily_roll st env ⟨hready, hvalid, hdiff, hnonempty⟩
  refine ⟨hdate, ?_, ?_⟩
  · intro hc
    rw [hdaily]
    unfold resumeDailyTally
    rw [if_pos hc]
  · intro hc
    rw [hdaily]
    unfold resumeDailyTally
    rw [if_neg hc]

/-- Witness for C4: from a state dated 2025-01-01 with 7 stored and 5
pending impressions, a report seeing 2025-01-02 with remote value 42
adopts the new date and resumes the tally at 42. -/
theorem C4_day_rollover_witness :
    (extractDateFromDateTime rolloverEnv.timeStr ≠ busyState.currentDate ∧
      0 < busyState.currentDate.length) ∧
    (reportAnalytics busyState rolloverEnv).1.currentDate = extractDateFromDateTime rolloverEnv.timeStr ∧
    (reportAnalytics busyState rolloverEnv).1.dailyImpressions = 42 :=
  ⟨⟨by decide, by decide⟩,
    (C4_day_rollover busyState rolloverEnv rfl ⟨by decide, by decide⟩ (by decide) (by decide)).1,
    (C4_day_rollover busyState rolloverEnv rfl ⟨by decide, by decide⟩ (by decide) (by decide)).2.1
      ⟨rfl, by decide⟩⟩

/-- C5 counterexample: with 5 impressions accumulated in the cycle and a
stored tally of 7, a report under the unavailable time sentinel changes
DailyTally.impressions (to 12), contradicting the claim that it is
unchanged by that cycle report step. -/
theorem C5_counterexample :
    unavailableEnv.timeStr = "Time unavailable" ∧
    (reportAnalytics busyState unavailableEnv).1.dailyImpressions ≠ busyState.dailyImpressions :=
  ⟨rfl, by decide⟩

/-- C5 as amended: under the unavailable time sentinel no publish call is
issued and no report JSON is composed, the stored date is unchanged, and
the generation rollover and cycle-counter reset still occur afterward;
but the daily tally still grows by the cycle accumulated impression
count, because that accumulation precedes the time check. -/
theorem C5_time_unavailable (st : SysState) (env : ReportEnv)
    (henv : env.timeStr = "Time unavailable") :
    (reportAnalytics st env).2.published = false ∧
    (reportAnalytics st env).2.reportJSON = none ∧
    (reportAnalytics st env).1.currentDate = st.currentDate ∧
    (reportAnalytics st env).1.dailyImpressions = st.dailyImpressions + st.impressionCount ∧
    (endCycle st env).previousCycleHashes = st.currentCycleHashes ∧
    (endCycle st env).currentCycleHashes = [] ∧
    (endCycle st env).scanCounter = 0 := by
  obtain ⟨e1, e2, e3⟩ := reportAnalytics_unavailable st env henv
  have hnr : ¬ dayRolloverTaken st env := by
    rintro ⟨-, ⟨-, hvalid⟩, -⟩
    exact hvalid henv
  obtain ⟨f1, f2, f3, f4, f5, f6, f7, f8, f9⟩ := endCycle_fields st env
  exact ⟨e1, e2, e3, reportAnalytics_daily_noRoll st env hnr, f2, f1, f8⟩

/-- Witness for C5 at the concrete mid-process state. -/
theorem C5_time_unavailable_witness :
    unavailableEnv.timeStr = "Time unavailable" ∧
    (reportAnalytics busyState unavailableEnv).2.published = false ∧
    (reportAnalytics busyState unavailableEnv).1.dailyImpressions =
      busyState.dailyImpressions + busyState.impressionCount :=
  ⟨rfl, (C5_time_unavailable busyState unavailableEnv rfl).1,
    (C5_time_unavailable busyState unavailableEnv rfl).2.2.2.1⟩

/-- C6 counterexample: an errored poll (driver code -2) increments the
cumulative scan counter, contradicting the claim that no cumulative
counter changes as a result of the errored poll. -/
theorem C6_counterexample :
    ((-2 : Int) < 0) ∧
    (performWiFiScan baseState (-2) []).totalScansPerformed ≠ baseState.totalScansPerformed :=
  ⟨by decide, by decide⟩

/-- C6 as amended: on a scan error the error tally is incremented and the
batch is discarded — no hash set, no cycle counter, no classification or
impression counter, and no cumulative unique or report counter changes —
but the cumulative scan counter still increments, and the loop still
advances the per-cycle scan counter toward the report boundary. -/
theorem C6_scan_error (st : SysState) (n : Int) (bssids : List (List Nat)) (env : ReportEnv)
    (hn : n < 0) :
    performWiFiScan st n bssids =
      { st with
          totalScansPerformed := st.totalScansPerformed + 1,
          scanErrors := st.scanErrors + 1 } ∧
    (st.scanCounter + 1 < SCANS_PER_UPLOAD →
      (loopScanTick st n bssids env).1 =
        { st with
            totalScansPerformed := st.totalScansPerformed + 1,
            scanErrors := st.scanErrors + 1,
            scanCounter := st.scanCounter + 1 } ∧
      (loopScanTick st n bssids env).2 = none) := by
  have hscan : performWiFiScan st n bssids =
      { st with
          totalScansPerformed := st.totalScansPerformed + 1,
          scanErrors := st.scanErrors + 1 } := by
    unfold performWiFiScan
    rw [if_pos hn]
  refine ⟨hscan, ?_⟩
  intro hcnt
  unfold loopScanTick
  rw [hscan]
  dsimp only
  rw [if_neg (by omega)]
  exact ⟨rfl, rfl⟩

/-- Witness for C6: the errored poll at a fresh state. -/
theorem C6_scan_error_witness :
    ((-2 : Int) < 0 ∧ baseState.scanCounter + 1 < SCANS_PER_UPLOAD) ∧
    performWiFiScan baseState (-2) [] =
      { baseState with totalScansPerformed := 1, scanErrors := 1 } ∧
    (loopScanTick baseState (-2) [] idleEnv).2 = none :=
  ⟨⟨by decide, by decide⟩,
    (C6_scan_error baseState (-2) [] idleEnv (by decide)).1,
    ((C6_scan_error baseState (-2) [] idleEnv (by decide)).2 (by decide)).2⟩

/-- C3 counterexample: a successful scan with one raw detection leaves
dailyImpressions unchanged (it stays 0 rather than growing to 1), so the
daily tally does not grow at scan time as the claim states. -/
theorem C3_counterexample :
    ((0 : Int) < 1) ∧
    (performWiFiScan baseState 1 [macA]).dailyImpressions ≠ baseState.dailyImpressions + 1 :=
  ⟨by decide, by decide⟩

/-- C3 as amended: a successful scan with detectionCount raw detections
adds detectionCount to the cycle total and to the per-cycle impression
count (raw detections, not deduplicated) and folds the classification
counts into the cycle unique and repeated tallies; the daily tally is
untouched at scan time and instead grows by the accumulated per-cycle
impression count at each report step (absent a day rollover), so it grows
by the raw detections once per report cycle rather than after each scan. -/
theorem C3_record_scan (st : SysState) (n : Int) (bssids : List (List Nat)) (env : ReportEnv)
    (hn : 0 < n) (hnr : ¬ dayRolloverTaken st env) :
    (performWiFiScan st n bssids).wifiNetworksThisCycle = st.wifiNetworksThisCycle + n.toNat ∧
    (performWiFiScan st n bssids).impressionCount = st.impressionCount + n.toNat ∧
    (performWiFiScan st n bssids).dailyImpressions = st.dailyImpressions ∧
    (performWiFiScan st n bssids).uniqueWifiNetworks =
      st.uniqueWifiNetworks + (scanClassification st n.toNat bssids).uniq ∧
    (performWiFiScan st n bssids).repeatedWifiNetworks =
      st.repeatedWifiNetworks + (scanClassification st n.toNat bssids).rep ∧
    (reportAnalytics st env).1.dailyImpressions = st.dailyImpressions + st.impressionCount := by
  rw [performWiFiScan_pos st n bssids hn]
  exact ⟨rfl, rfl, rfl, rfl, rfl, reportAnalytics_daily_noRoll st env hnr⟩

/-- Witness for C3 at concrete inputs. -/
theorem C3_record_scan_witness :
    (((0 : Int) < 1) ∧ ¬ dayRolloverTaken busyState idleEnv) ∧
    (performWiFiScan busyState 1 [macA]).impressionCount = busyState.impressionCount + (1 : Int).toNat ∧
    (reportAnalytics busyState idleEnv).1.dailyImpressions =
      busyState.dailyImpressions + busyState.impressionCount :=
  ⟨⟨by decide, by decide⟩,
    (C3_record_scan busyState 1 [macA] idleEnv (by decide) (by decide)).2.1,
    (C3_record_scan busyState 1 [macA] idleEnv (by decide) (by decide)).2.2.2.2.2⟩

/-- C9: within a fixed date the daily tally is monotone non-decreasing:
a scan step leaves it unchanged, the cycle reset leaves it unchanged, and
a report step that does not take the day-rollover replacement can only
grow it. -/
theorem C9_daily_monotone (st : SysState) (n : Int) (bssids : List (List Nat)) (env : ReportEnv) :
    (performWiFiScan st n bssids).dailyImpressions = st.dailyImpressions ∧
    (cycleReset st).dailyImpressions = st.dailyImpressions ∧
    (¬ dayRolloverTaken st env →
      st.dailyImpressions ≤ (reportAnalytics st env).1.dailyImpressions) := by
  refine ⟨?_, rfl, ?_⟩
  · unfold performWiFiScan
    split
    · rfl
    · split <;> rfl
  · intro h
    rw [reportAnalytics_daily_noRoll st env h]
    exact Nat.le_add_right _ _

/-- Witness for C9 at a concrete no-rollover report. -/
theorem C9_daily_monotone_witness :
    (¬ dayRolloverTaken busyState unavailableEnv) ∧
    busyState.dailyImpressions ≤ (reportAnalytics busyState unavailableEnv).1.dailyImpressions :=
  ⟨by decide,
    (C9_daily_monotone busyState 1 [macA] unavailableEnv).2.2 (by decide)⟩

/-- The cumulative unique total never decreases across one scan
classification. -/
theorem scanClassification_total_mono (st : SysState) (n : Nat) (bssids : List (List Nat)) :
    st.totalWifiNetworks ≤ (scanClassification st n bssids).total :=
  classify_total_mono st.previousCycleHashes _ ⟨st.currentCycleHashes, 0, 0, st.totalWifiNetworks⟩

/-- Cumulative counters never decrease across a scan step. -/
theorem performWiFiScan_total_mono (st : SysState) (n : Int) (bssids : List (List Nat)) :
    st.totalWifiNetworks ≤ (performWiFiScan st n bssids).totalWifiNetworks ∧
    st.totalScansPerformed ≤ (performWiFiScan st n bssids).totalScansPerformed ∧
    st.totalReportsGenerated ≤ (performWiFiScan st n bssids).totalReportsGenerated := by
  unfold performWiFiScan
  split
  · exact ⟨le_refl _, Nat.le_succ _, le_refl _⟩
  · split
    · exact ⟨le_refl _, Nat.le_succ _, le_refl _⟩
    · exact ⟨scanClassification_total_mono st _ bssids, Nat.le_succ _, le_refl _⟩

/-- Cumulative counters never decrease across a full loop tick, report
and reset included. -/
theorem loopScanTick_total_mono (st : SysState) (n : Int) (bssids : List (List Nat))
    (env : ReportEnv) :
    st.totalWifiNetworks ≤ (loopScanTick st n bssids env).1.totalWifiNetworks ∧
    st.totalScansPerformed ≤ (loopScanTick st n bssids env).1.totalScansPerformed ∧
    st.totalReportsGenerated ≤ (loopScanTick st n bssids env).1.totalReportsGenerated := by
  obtain ⟨m1, m2, m3⟩ := performWiFiScan_total_mono st n bssids
  unfold loopScanTick
  dsimp only
  split
  · obtain ⟨r1, r2, r3, r4, r5, r6, r7, r8, r9, r10, r11, r12⟩ :=
      reportAnalytics_frame
        { performWiFiScan st n bssids with
            scanCounter := (performWiFiScan st n bssids).scanCounter + 1 } env
    exact ⟨le_trans m1 (le_of_eq r3.symm), le_trans m2 (le_of_eq r9.symm),
      le_trans (le_trans m3 (Nat.le_succ _)) (le_of_eq r12.symm)⟩
  · exact ⟨m1, m2, m3⟩

/-- C7: the cycle reset zeroes every cycle-scoped counter — the cycle
total, the unique and repeated tallies, the per-cycle impression count
and the scan counter — while leaving the cumulative unique, scan and
report counters unchanged; and no transition of the system (scan step,
report step, full loop tick) ever decreases a cumulative counter, so
they are never reset during the process lifetime. -/
theorem C7_cycle_reset_frame (st : SysState) (n : Int) (bssids : List (List Nat))
    (env : ReportEnv) :
    ((cycleReset st).wifiNetworksThisCycle = 0 ∧
      (cycleReset st).uniqueWifiNetworks = 0 ∧
      (cycleReset st).repeatedWifiNetworks = 0 ∧
      (cycleReset st).impressionCount = 0 ∧
      (cycleReset st).scanCounter = 0) ∧
    ((cycleReset st).totalWifiNetworks = st.totalWifiNetworks ∧
      (cycleReset st).totalScansPerformed = st.totalScansPerformed ∧
      (cycleReset st).totalReportsGenerated = st.totalReportsGenerated) ∧
    (st.totalWifiNetworks ≤ (performWiFiScan st n bssids).totalWifiNetworks ∧
      st.totalScansPerformed ≤ (performWiFiScan st n bssids).totalScansPerformed ∧
      st.totalReportsGenerated ≤ (performWiFiScan st n bssids).totalReportsGenerated) ∧
    (st.totalWifiNetworks ≤ (reportAnalytics st env).1.totalWifiNetworks ∧
      st.totalScansPerformed ≤ (reportAnalytics st env).1.totalScansPerformed ∧
      st.totalReportsGenerated ≤ (reportAnalytics st env).1.totalReportsGenerated) ∧
    (st.totalWifiNetworks ≤ (loopScanTick st n bssids env).1.totalWifiNetworks ∧
      st.totalScansPerformed ≤ (loopScanTick st n bssids env).1.totalScansPerformed ∧
      st.totalReportsGenerated ≤ (loopScanTick st n bssids env).1.totalReportsGenerated) := by
  obtain ⟨r1, r2, r3, r4, r5, r6, r7, r8, r9, r10, r11, r12⟩ := reportAnalytics_frame st env
  refine ⟨⟨rfl, rfl, rfl, rfl, rfl⟩, ⟨rfl, rfl, rfl⟩,
    performWiFiScan_total_mono st n bssids,
    ⟨le_of_eq r3.symm, le_of_eq r9.symm, by rw [r12]; exact Nat.le_succ _⟩,
    loopScanTick_total_mono st n bssids env⟩

/-- C2: two-generation bounded memory. For an identifier observed in
cycle 1 and again in cycle 2, the cycle-2 observation is classified
unique-this-cycle-only, so the cumulative unique total increments exactly
once across both cycles; for an identifier observed in cycle 1, absent in
cycle 2, and observed again in cycle 3, the cycle-3 observation is
classified new-to-system and the cumulative total increments a second
time. -/
theorem C2_two_generation_memory (salt daily : Nat) (date : String) (a b : List Nat)
    (env1 env2 : ReportEnv)
    (hab : hashMAC a salt ≠ hashMAC b salt) :
    ((scanBatch (initState salt date daily) [a]).totalWifiNetworks = 1 ∧
      (scanBatch (endCycle (scanBatch (initState salt date daily) [a]) env1) [a]).totalWifiNetworks = 1 ∧
      (scanBatch (endCycle (scanBatch (initState salt date daily) [a]) env1) [a]).uniqueWifiNetworks = 1) ∧
    ((scanBatch (endCycle (scanBatch (initState salt date daily) [a]) env1) [b]).totalWifiNetworks = 2 ∧
      (scanBatch (endCycle (scanBatch (endCycle (scanBatch (initState salt date daily) [a]) env1) [b]) env2) [a]).totalWifiNetworks = 3 ∧
      (scanBatch (endCycle (scanBatch (endCycle (scanBatch (initState salt date daily) [a]) env1) [b]) env2) [a]).uniqueWifiNetworks = 1) := by
  -- cycle 1: a is new to both generations
  have e1 := scanBatch_single_new (initState salt date daily) a
    (List.not_mem_nil _) (List.not_mem_nil _)
  have s1cur : (scanBatch (initState salt date daily) [a]).currentCycleHashes =
      [hashMAC a salt] := by rw [e1]; rfl
  have s1tot : (scanBatch (initState salt date daily) [a]).totalWifiNetworks = 1 := by
    rw [e1]; rfl
  have s1salt : (scanBatch (initState salt date daily) [a]).ephemeralSalt = salt := by
    rw [e1]; rfl
  -- rollover into cycle 2
  obtain ⟨c1cur, c1prev, c1tot, c1uniq, _, _, _, _, c1salt⟩ :=
    endCycle_fields (scanBatch (initState salt date daily) [a]) env1
  rw [s1cur] at c1prev
  rw [s1tot] at c1tot
  rw [s1salt] at c1salt
  -- cycle 2 observing a again: only the previous generation holds a
  have e2 := scanBatch_single_prevOnly (endCycle (scanBatch (initState salt date daily) [a]) env1) a
    (by rw [c1salt, c1cur]; exact List.not_mem_nil _)
    (by rw [c1salt, c1prev]; exact List.mem_singleton_self _)
  have s2tot : (scanBatch (endCycle (scanBatch (initState salt date daily) [a]) env1) [a]).totalWifiNetworks = 1 := by
    rw [e2]
    exact c1tot
  have s2uniq : (scanBatch (endCycle (scanBatch (initState salt date daily) [a]) env1) [a]).uniqueWifiNetworks = 1 := by
    rw [e2]
    show (endCycle (scanBatch (initState salt date daily) [a]) env1).uniqueWifiNetworks + 1 = 1
    rw [c1uniq]
  -- cycle 2 observing b instead: b is new to both generations
  have e2b := scanBatch_single_new (endCycle (scanBatch (initState salt date daily) [a]) env1) b
    (by rw [c1salt, c1cur]; exact List.not_mem_nil _)
    (by
      rw [c1salt, c1prev]
      simp only [List.mem_singleton]
      exact fun hkk => hab hkk.symm)
  have t2tot : (scanBatch (endCycle (scanBatch (initState salt date daily) [a]) env1) [b]).totalWifiNetworks = 2 := by
    rw [e2b]
    show (endCycle (scanBatch (initState salt date daily) [a]) env1).totalWifiNetworks + 1 = 2
    rw [c1tot]
  have t2cur : (scanBatch (endCycle (scanBatch (initState salt date daily) [a]) env1) [b]).currentCycleHashes =
      [hashMAC b salt] := by
    rw [e2b]
    show hashMAC b (endCycle (scanBatch (initState salt date daily) [a]) env1).ephemeralSalt ::
        (endCycle (scanBatch (initState salt date daily) [a]) env1).currentCycleHashes = [hashMAC b salt]
    rw [c1salt, c1cur]
  have t2salt : (scanBatch (endCycle (scanBatch (initState salt date daily) [a]) env1) [b]).ephemeralSalt = salt := by
    rw [e2b]
    exact c1salt
  -- rollover into cycle 3
  obtain ⟨c2cur, c2prev, c2tot, c2uniq, _, _, _, _, c2salt⟩ :=
    endCycle_fields (scanBatch (endCycle (scanBatch (initState salt date daily) [a]) env1) [b]) env2
  rw [t2cur] at c2prev
  rw [t2tot] at c2tot
  rw [t2salt] at c2salt
  -- cycle 3 observing a: a is gone from both generations
  have e3 := scanBatch_single_new
    (endCycle (scanBatch (endCycle (scanBatch (initState salt date daily) [a]) env1) [b]) env2) a
    (by rw [c2salt, c2cur]; exact List.not_mem_nil _)
    (by
      rw [c2salt, c2prev]
      simp only [List.mem_singleton]
      exact hab)
  have s3tot : (scanBatch (endCycle (scanBatch (endCycle (scanBatch (initState salt date daily) [a]) env1) [b]) env2) [a]).totalWifiNetworks = 3 := by
    rw [e3]
    show (endCycle (scanBatch (endCycle (scanBatch (initState salt date daily) [a]) env1) [b]) env2).totalWifiNetworks + 1 = 3
    rw [c2tot]
  have s3uniq : (scanBatch (endCycle (scanBatch (endCycle (scanBatch (initState salt date daily) [a]) env1) [b]) env2) [a]).uniqueWifiNetworks = 1 := by
    rw [e3]
    show (endCycle (scanBatch (endCycle (scanBatch (initState salt date daily) [a]) env1) [b]) env2).uniqueWifiNetworks + 1 = 1
    rw [c2uniq]
  exact ⟨⟨s1tot, s2tot, s2uniq⟩, t2tot, s3tot, s3uniq⟩

/-- Witness for C2 at the two concrete identifiers under salt 0. -/
theorem C2_two_generation_memory_witness :
    hashMAC macA 0 ≠ hashMAC macB 0 ∧
    (scanBatch (endCycle (scanBatch (initState 0 "2025-01-01" 0) [macA]) idleEnv) [macA]).totalWifiNetworks = 1 ∧
    (scanBatch (endCycle (scanBatch (endCycle (scanBatch (initState 0 "2025-01-01" 0) [macA]) idleEnv) [macB]) idleEnv) [macA]).totalWifiNetworks = 3 :=
  ⟨by decide,
    (C2_two_generation_memory 0 0 "2025-01-01" macA macB idleEnv idleEnv (by decide)).1.2.1,
    (C2_two_generation_memory 0 0 "2025-01-01" macA macB idleEnv idleEnv (by decide)).2.2.1⟩

/-- Classification under the safety cap depends only on the first
MAX_NETWORKS_PER_SCAN scan results. -/
theorem scanClassification_cap (st : SysState) (n : Nat) (bssids : List (List Nat))
    (h : MAX_NETWORKS_PER_SCAN < n) :
    scanClassification st n bssids =
      scanClassification st n (bssids.take MAX_NETWORKS_PER_SCAN) := by
  unfold scanClassification
  rw [if_pos h]
  dsimp only
  rw [List.take_take, min_self]

set_option maxRecDepth 4000 in
/-- C10: safety-cap asymmetry. For a scan finding more than 20 networks
only the first 20 results are hashed, classified and inserted, while the
impression count and the cycle total grow by the full uncapped count; so
cycleUnique plus cycleRepeated can be strictly less than the cycle total
(witnessed by a 21-network scan), while for scans of at most 20 networks
the two tallies account for every detection. -/
theorem C10_safety_cap (st : SysState) (n : Int) (bssids : List (List Nat)) :
    (20 < n → performWiFiScan st n bssids = performWiFiScan st n (bssids.take 20)) ∧
    (20 < n →
      (performWiFiScan st n bssids).impressionCount = st.impressionCount + n.toNat ∧
      (performWiFiScan st n bssids).wifiNetworksThisCycle = st.wifiNetworksThisCycle + n.toNat) ∧
    (0 < n → n ≤ 20 → n.toNat = bssids.length →
      (performWiFiScan st n bssids).uniqueWifiNetworks +
          (performWiFiScan st n bssids).repeatedWifiNetworks
        = st.uniqueWifiNetworks + st.repeatedWifiNetworks + n.toNat) ∧
    ((performWiFiScan baseState 21 (List.replicate 21 macA)).uniqueWifiNetworks +
        (performWiFiScan baseState 21 (List.replicate 21 macA)).repeatedWifiNetworks = 20 ∧
      (performWiFiScan baseState 21 (List.replicate 21 macA)).wifiNetworksThisCycle = 21 ∧
      (20 : Nat) < 21) := by
  refine ⟨?_, ?_, ?_, by decide, by decide, by decide⟩
  · intro h20
    rw [performWiFiScan_pos st n bssids (by omega), performWiFiScan_pos st n (bssids.take 20) (by omega)]
    rw [scanClassification_cap st n.toNat bssids (by unfold MAX_NETWORKS_PER_SCAN; omega)]
    rfl
  · intro h20
    rw [performWiFiScan_pos st n bssids (by omega)]
    exact ⟨rfl, rfl⟩
  · intro hpos hle hlen
    rw [performWiFiScan_pos st n bssids hpos]
    have hacc : (scanClassification st n.toNat bssids).uniq +
        (scanClassification st n.toNat bssids).rep = n.toNat := by
      unfold scanClassification
      dsimp only
      rw [if_neg (by unfold MAX_NETWORKS_PER_SCAN; omega)]
      rw [classify_count]
      simp only [List.length_map, List.length_take]
      omega
    dsimp only
    omega

/-- Witness for C10: a 21-network scan processes only its first 20
results. -/
theorem C10_safety_cap_witness :
    ((20 : Int) < 21) ∧
    performWiFiScan baseState 21 (List.replicate 21 macA) =
      performWiFiScan baseState 21 ((List.replicate 21 macA).take 20) :=
  ⟨by decide, (C10_safety_cap baseState 21 (List.replicate 21 macA)).1 (by decide)⟩
